import Mathlib

/-!
Verification of the moneroger process-supervisor library against its
natural-language specification.  The Go code is shallowly embedded:

* pure functions become Lean functions;
* methods with pointer receivers that mutate their receiver become
  state-passing functions returning the result together with the updated
  receiver value;
* external effects (TCP probes, the random password generator, executable
  lookup, process spawning, signal delivery, process exit) are abstracted
  into an explicit `Env` of oracles, and real time in the readiness poll is
  discretised to whole seconds (the source sleeps exactly one second per
  failed probe and the per-probe dial timeout is one second);
* Go runtime panics (nil-pointer dereference) are made explicit through the
  `PanicOr` result type;
* control-flow facts that the claims mention ("a process was spawned",
  "the daemon supervisor's Shutdown was invoked") are recorded as event
  traces emitted exactly where the corresponding Go statement executes.
-/

/-! ## Error taxonomy (errors/types.go, errors/errors.go) -/

/-- Kind from errors/types.go: the category of an error.  The constructor
order mirrors the Go iota order starting at KindUnknown. -/
inductive Kind where
  | unknown
  | network
  | process
  | config
  | timeout
  | system
deriving DecidableEq, Repr

/-- Kind.String from errors/types.go. -/
def Kind.render : Kind → String
  | .network => "network error"
  | .process => "process error"
  | .config => "configuration error"
  | .timeout => "timeout error"
  | .system => "system error"
  | .unknown => "unknown error"

/-- Go error values as they occur in this repository.

* `tax op component kind err` is the taxonomy type `*errors.Error` with its
  four fields (`Err` is `nil` when the option is `none`);
* `wrapped msg cause` is an error built by `fmt.Errorf` with a `%w` verb:
  its message is `msg` followed by the rendered cause, and `Unwrap` returns
  the cause;
* `basic msg` is an error with no `Unwrap` (e.g. `fmt.Errorf` without `%w`,
  or `context.Canceled`). -/
inductive GoError where
  | tax (op : String) (component : String) (kind : Kind) (err : Option GoError)
  | wrapped (msg : String) (cause : GoError)
  | basic (msg : String)

/-- Error.Error from errors/types.go: the rendered message
"component: op: kind" with ": cause" appended when Err is non-nil. -/
def errMessage : GoError → String
  | .basic m => m
  | .wrapped m cause => m ++ errMessage cause
  | .tax o c k none => c ++ ": " ++ o ++ ": " ++ k.render
  | .tax o c k (some e) => c ++ ": " ++ o ++ ": " ++ k.render ++ ": " ++ errMessage e

/-- True when the error value itself is the taxonomy type `*errors.Error`. -/
def GoError.isTax : GoError → Bool
  | .tax _ _ _ _ => true
  | _ => false

/-- True when the unwrap chain of the error reaches a taxonomy `*Error`. -/
def hasTax : GoError → Bool
  | .tax _ _ _ _ => true
  | .wrapped _ cause => hasTax cause
  | .basic _ => false

/-- The partially built Error struct inside the constructor E (Go zero
value: empty strings, KindUnknown, nil Err). -/
structure ErrStruct where
  op : String
  component : String
  kind : Kind
  err : Option GoError

/-- One argument of the variadic constructor `E(args ...interface{})`,
discriminated the way the Go type switch discriminates dynamic types.
`errArg` covers both the `*Error` case (which copies the value — identical
to reusing it in a pure model) and the general `error` case. -/
inductive EArg where
  | opArg (o : String)
  | compArg (c : String)
  | kindArg (k : Kind)
  | errArg (e : GoError)

/-- The body of the type switch in E: assign the argument to the field
selected by its dynamic type. -/
def setArg (s : ErrStruct) (a : EArg) : ErrStruct :=
  match a with
  | .opArg o => { s with op := o }
  | .compArg c => { s with component := c }
  | .kindArg k => { s with kind := k }
  | .errArg e => { s with err := some e }

/-- E from errors/errors.go: fold the argument list over a zero Error. -/
def E (args : List EArg) : GoError :=
  let s := args.foldl setArg ⟨"", "", Kind.unknown, none⟩
  .tax s.op s.component s.kind s.err

/-- The transitive unwrap performed by `errors.As(err, &e)` with target
type `*errors.Error`: test the current value, otherwise follow Unwrap;
`basic` values have no Unwrap so the search stops there. -/
def getKindAux : GoError → Kind
  | .tax _ _ k _ => k
  | .wrapped _ cause => getKindAux cause
  | .basic _ => .unknown

/-- GetKind from errors/errors.go (src/unnamed/part_007): KindUnknown for
nil and for every error whose chain holds no `*Error`. -/
def GetKind : Option GoError → Kind
  | none => .unknown
  | some e => getKindAux e

/-! ## Readiness prober (util/util.go) -/

/-- A Go context as WaitForPort consumes it: whether its Done channel is
closed at second `t`, and the value `ctx.Err()` reports once done. -/
structure Ctx where
  doneAt : Nat → Bool
  errVal : GoError

/-- moneroconst.DefaultStartupTimeout in seconds. -/
def DefaultStartupTimeout : Nat := 30

/-- The polling loop of WaitForPort.  `t` is the current second,
`remaining` the seconds left until the deadline (the loop guard
`time.Now().Before(deadline)` holds exactly when `remaining > 0`).  Each
iteration first checks cancellation (the select with a `default` branch),
then probes the port, and otherwise sleeps one second. -/
def waitLoop (ctx : Ctx) (portBusyAt : Nat → Bool) (port : Int) :
    Nat → Nat → Option GoError
  | _, 0 => some (.basic ("timeout waiting for port " ++ toString port))
  | t, r + 1 =>
    if ctx.doneAt t then some ctx.errVal
    else if portBusyAt t then none
    else waitLoop ctx portBusyAt port (t + 1) r

/-- WaitForPort from util/util.go: poll from second 0 with a 30-second
deadline; `none` is the nil error (port became available). -/
def WaitForPort (ctx : Ctx) (portBusyAt : Nat → Bool) (port : Int) : Option GoError :=
  waitLoop ctx portBusyAt port 0 DefaultStartupTimeout

/-! ## Data model of the two supervisors -/

/-- An OS process reference (`*os.Process`); only identity matters here. -/
structure Process where
  pid : Int
deriving DecidableEq, Repr

/-- The part of `*exec.Cmd` the lifecycle code reads: its Process field,
nil until `cmd.Start()` succeeds. -/
structure Cmd where
  process : Option Process
deriving DecidableEq, Repr

/-- util.Config from util/config.go. -/
structure Config where
  dataDir : String
  walletFile : String
  moneroPort : Int
  walletPort : Int
  testNet : Bool

/-- MoneroDaemon from monerod/types.go, with the `process` field that
monerod.go reads and writes (present in the monerod/types.go draft kept at
src/unnamed/part_002; the unused `useRemoteNode` field is omitted). -/
structure MoneroDaemon where
  cmd : Option Cmd
  dataDir : String
  rpcPort : Int
  rpcUser : String
  rpcPass : String
  testnet : Bool
  process : Option Process

/-- WalletRPC from monero-wallet-rpc/types.go.  The `daemon` pointer is
embedded by value and threaded through every mutation of the daemon. -/
structure WalletRPC where
  cmd : Option Cmd
  walletDir : String
  rpcPort : Int
  rpcUser : String
  rpcPass : String
  walletPass : String
  daemon : MoneroDaemon
  process : Option Process

/-- Moneroger from moneroger.go (kept at src/unnamed/part_010): the
coordinator holding both supervisors by value. -/
structure Moneroger where
  monerod : MoneroDaemon
  monerowalletrpc : WalletRPC

/-- Oracles for every external effect the lifecycle code performs.  A
field stands for the outcome the outside world produces at the single
program point that consults it. -/
structure Env where
  /-- util.IsPortInUse at the instant Start begins, per port. -/
  portBusy : Int → Bool
  /-- util.SecurePassword() output when the daemon generates a password. -/
  daemonGenPass : String
  /-- util.SecurePassword() output when the wallet generates a password. -/
  walletGenPass : String
  /-- MoneroDPath(): the resolved executable path or a lookup error. -/
  moneroDPathRes : Except GoError String
  /-- Error of `cmd.Start()` for the daemon, `none` on success. -/
  daemonStartErr : Option GoError
  /-- The OS process a successful daemon spawn creates. -/
  daemonProc : Process
  /-- The context passed to util.WaitForPort for the daemon. -/
  daemonCtx : Ctx
  /-- Whether the daemon port accepts connections at second t of its poll. -/
  daemonPortBusyAt : Nat → Bool
  /-- MoneroWalletRPCPath(): resolved path or lookup error. -/
  walletPathRes : Except GoError String
  /-- Error of `cmd.Start()` for the wallet, `none` on success. -/
  walletStartErr : Option GoError
  /-- The OS process a successful wallet spawn creates. -/
  walletProc : Process
  /-- The context passed to util.WaitForPort for the wallet. -/
  walletCtx : Ctx
  /-- Whether the wallet port accepts connections at second t of its poll. -/
  walletPortBusyAt : Nat → Bool
  /-- util.IsPortInUse at the instant checkHealth probes the wallet port. -/
  healthPortBusy : Bool
  /-- Error of `Process.Signal(os.Interrupt)` on the wallet, nil = delivered. -/
  walletSignalErr : Option GoError
  /-- Whether the wallet process exits before the 10-second shutdown
  context fires (the select between ctx.Done and the wait goroutine). -/
  walletExitsInTime : Bool
  /-- Error reported by `Process.Wait()` for the wallet, nil = clean exit. -/
  walletWaitErr : Option GoError
  /-- Error of `Process.Signal(os.Interrupt)` on the daemon, nil = delivered. -/
  daemonSignalErr : Option GoError

/-- util.IsPortInUse as the supervisors call it at Start time. -/
def IsPortInUse (env : Env) (port : Int) : Bool :=
  env.portBusy port

/-- The outcome of Go code that can hit a runtime panic: either the panic
(a nil-pointer dereference here) or the value the code returns. -/
inductive PanicOr (α : Type) where
  | panicked
  | value (a : α)

/-- Events recorded while a supervisor runs, marking the execution of the
corresponding Go statement. -/
inductive Event where
  /-- A successful `cmd.Start()`: a new OS process was created. -/
  | spawn
deriving DecidableEq, Repr

/-- Which sub-shutdown the coordinator invoked, in order. -/
inductive Call where
  | walletShutdownCall
  | daemonShutdownCall
deriving DecidableEq, Repr

/-! ## Credential accessors (monerod/types.go, monero-wallet-rpc/types.go)

Each accessor mutates its receiver when the field is unset, so it returns
the value together with the updated receiver.  The generated password is
supplied by the environment (`util.SecurePassword()` always returns a
20-character string, hence a nonempty one). -/

/-- MoneroDaemon.RPCUser: default the username to "gouser" and return it. -/
def MoneroDaemon.RPCUser (m : MoneroDaemon) : String × MoneroDaemon :=
  let m1 := if m.rpcUser = "" then { m with rpcUser := "gouser" } else m
  (m1.rpcUser, m1)

/-- MoneroDaemon.RPCPass: generate and memoize a password when unset. -/
def MoneroDaemon.RPCPass (m : MoneroDaemon) (gen : String) : String × MoneroDaemon :=
  let m1 := if m.rpcPass = "" then { m with rpcPass := gen } else m
  (m1.rpcPass, m1)

/-- WalletRPC.WalletRPCUser: default the username to "gouser". -/
def WalletRPC.WalletRPCUser (w : WalletRPC) : String × WalletRPC :=
  let w1 := if w.rpcUser = "" then { w with rpcUser := "gouser" } else w
  (w1.rpcUser, w1)

/-- WalletRPC.WalletRPCPass: generate and memoize a password when unset. -/
def WalletRPC.WalletRPCPass (w : WalletRPC) (gen : String) : String × WalletRPC :=
  let w1 := if w.rpcPass = "" then { w with rpcPass := gen } else w
  (w1.rpcPass, w1)

/-- WalletRPC.WalletPass from monero-wallet-rpc/types.go, exactly as
written: default the walletPass field to "changeme" when unset, but return
the rpcPass field. -/
def WalletRPC.WalletPass (w : WalletRPC) : String × WalletRPC :=
  let w1 := if w.walletPass = "" then { w with walletPass := "changeme" } else w
  (w1.rpcPass, w1)

/-- WalletRPC.SetWalletPass: store the wallet password, returning nil. -/
def WalletRPC.SetWalletPass (w : WalletRPC) (pass : String) : Option GoError × WalletRPC :=
  (none, { w with walletPass := pass })

/-! ## Daemon supervisor (monerod/monerod.go) -/

/-- MoneroDaemon.start: build the argument list (mutating the credential
fields), resolve the executable, spawn, then wait for the RPC port.  The
returned trace holds `Event.spawn` exactly when `cmd.Start()` succeeded. -/
def MoneroDaemon.start (env : Env) (m : MoneroDaemon) :
    Option GoError × MoneroDaemon × List Event :=
  let (user, m1) := m.RPCUser
  let (pass, m2) := m1.RPCPass env.daemonGenPass
  let _args :=
    ["--data-dir", m2.dataDir, "--rpc-bind-port", toString m2.rpcPort,
     "--rpc-login", user ++ ":" ++ pass, "--non-interactive"] ++
    (if m2.testnet then ["--testnet"] else [])
  match env.moneroDPathRes with
  | .error e =>
    (some (E [.opArg "ProcessSpawn", .compArg "monerod", .kindArg .process, .errArg e]),
     m2, [])
  | .ok _path =>
    match env.daemonStartErr with
    | some e =>
      (some (E [.opArg "ProcessSpawn", .compArg "monerod", .kindArg .process, .errArg e]),
       m2, [])
    | none =>
      let m3 := { m2 with cmd := some ⟨some env.daemonProc⟩, process := some env.daemonProc }
      match WaitForPort env.daemonCtx env.daemonPortBusyAt m3.rpcPort with
      | some e =>
        (some (E [.opArg "PortBinding", .compArg "monerod", .kindArg .network, .errArg e]),
         m3, [.spawn])
      | none => (none, m3, [.spawn])

/-- NewMoneroDaemon from monerod/monerod.go: attach to an already-running
daemon when its port is in use, otherwise construct and start one. -/
def NewMoneroDaemon (env : Env) (config : Config) :
    Except GoError MoneroDaemon × List Event :=
  if IsPortInUse env config.moneroPort then
    (.ok { cmd := none, dataDir := config.dataDir, rpcPort := config.moneroPort,
           rpcUser := "", rpcPass := "", testnet := config.testNet, process := none }, [])
  else
    let daemon : MoneroDaemon :=
      { cmd := none, dataDir := config.dataDir, rpcPort := config.moneroPort,
        rpcUser := "", rpcPass := "", testnet := config.testNet, process := none }
    match daemon.start env with
    | (some e, _m, evs) =>
      (.error (E [.opArg "Start", .compArg "monerod", .kindArg .process, .errArg e]), evs)
    | (none, m, evs) => (.ok m, evs)

/-- MoneroDaemon.Shutdown from monerod/monerod.go: when a process
reference is held, send it an interrupt and wrap a delivery failure;
it neither waits for exit nor clears the reference, and returns nil when
no reference is held. -/
def MoneroDaemon.Shutdown (env : Env) (m : MoneroDaemon) :
    Option GoError × MoneroDaemon :=
  match m.process with
  | none => (none, m)
  | some _p =>
    match env.daemonSignalErr with
    | some e => (some (.wrapped "failed to send interrupt to monerod: " e), m)
    | none => (none, m)

/-! ## Wallet supervisor (monero-wallet-rpc/rpcwallet.go) -/

/-- WalletRPC.Shutdown from monero-wallet-rpc/rpcwallet.go.  The guard is
`w.cmd.Process == nil`, which dereferences the `cmd` pointer: on a handle
whose `cmd` is nil (never started, or already shut down) this is a Go
nil-pointer panic, made explicit as `PanicOr.panicked`.  After a clean
exit both `cmd.Process` and `cmd` are set to nil. -/
def WalletRPC.Shutdown (env : Env) (w : WalletRPC) :
    PanicOr (Option GoError) × WalletRPC :=
  match w.cmd with
  | none => (.panicked, w)
  | some c =>
    match c.process with
    | none => (.value none, w)
    | some _p =>
      match env.walletSignalErr with
      | some e =>
        (.value (some (E [.opArg "WalletRPC.Shutdown", .compArg "wallet-rpc",
          .kindArg .process, .errArg (.wrapped "failed to send interrupt signal: " e)])), w)
      | none =>
        if env.walletExitsInTime then
          match env.walletWaitErr with
          | some e =>
            (.value (some (E [.opArg "WalletRPC.Shutdown", .compArg "wallet-rpc",
              .kindArg .process, .errArg (.wrapped "error during shutdown: " e)])), w)
          | none => (.value none, { w with cmd := none })
        else
          (.value (some (E [.opArg "WalletRPC.Shutdown", .compArg "wallet-rpc",
            .kindArg .timeout, .errArg (.basic "shutdown timed out")])), w)

/-- WalletRPC.checkHealth: currently only probes the port again. -/
def WalletRPC.checkHealth (env : Env) (w : WalletRPC) : Option GoError :=
  if env.healthPortBusy then none
  else
    some (E [.opArg "WalletRPC.CheckHealth", .compArg "wallet-rpc", .kindArg .network,
      .errArg (.basic ("wallet-rpc is not responding on port " ++ toString w.rpcPort))])

/-- The argument list built inside WalletRPC.Start (rpcwallet.go lines
137-147), with the credential accessors evaluated in source order: the
daemon's RPCUser and RPCPass (mutating the shared daemon), then the
wallet's WalletRPCUser, WalletRPCPass and finally WalletPass. -/
def buildWalletArgs (env : Env) (w : WalletRPC) : List String × WalletRPC :=
  let daemonAddr := "http://localhost:" ++ toString w.daemon.rpcPort
  let (du, d1) := w.daemon.RPCUser
  let (dp, d2) := d1.RPCPass env.daemonGenPass
  let w1 := { w with daemon := d2 }
  let (wu, w2) := w1.WalletRPCUser
  let (wp, w3) := w2.WalletRPCPass env.walletGenPass
  let (pw, w4) := w3.WalletPass
  (["--wallet-dir", w.walletDir,
    "--rpc-bind-port", toString w.rpcPort,
    "--daemon-address", daemonAddr,
    "--prompt-for-password",
    "--daemon-login", du ++ ":" ++ dp,
    "--rpc-login", wu ++ ":" ++ wp,
    "--password", pw], w4)

/-- WalletRPC.Start from monero-wallet-rpc/rpcwallet.go: error out when
the wallet port is already in use, otherwise build the argument list,
resolve the executable, spawn, wait for the port and health-check; the
two failure paths after a successful spawn call Shutdown and discard its
result. -/
def WalletRPC.Start (env : Env) (w : WalletRPC) :
    Option GoError × WalletRPC × List Event :=
  if IsPortInUse env w.rpcPort then
    (some (E [.opArg "WalletRPC.Start", .compArg "wallet-rpc", .kindArg .network,
      .errArg (.basic ("port " ++ toString w.rpcPort ++ " is already in use"))]), w, [])
  else
    let (_args, w1) := buildWalletArgs env w
    match env.walletPathRes with
    | .error e =>
      (some (E [.opArg "WalletRPC.Start", .compArg "wallet-rpc", .kindArg .process,
        .errArg (.wrapped "failed to start wallet-rpc process: " e)]), w1, [])
    | .ok _path =>
      match env.walletStartErr with
      | some e =>
        (some (E [.opArg "WalletRPC.Start", .compArg "wallet-rpc", .kindArg .process,
          .errArg (.wrapped "failed to start wallet-rpc process: " e)]), w1, [])
      | none =>
        let w2 := { w1 with cmd := some ⟨some env.walletProc⟩ }
        match WaitForPort env.walletCtx env.walletPortBusyAt w2.rpcPort with
        | some e =>
          let (_r, w3) := w2.Shutdown env
          (some (E [.opArg "WalletRPC.Start", .compArg "wallet-rpc", .kindArg .timeout,
            .errArg (.wrapped ("wallet-rpc failed to bind to port " ++
              toString w2.rpcPort ++ ": ") e)]), w3, [.spawn])
        | none =>
          match w2.checkHealth env with
          | some e =>
            let (_r, w3) := w2.Shutdown env
            (some e, w3, [.spawn])
          | none => (none, w2, [.spawn])

/-! ## Coordinator (moneroger.go, kept at src/unnamed/part_010) -/

/-- Moneroger.Shutdown: stop the wallet first; an error (or panic) from it
is returned at once and the daemon's Shutdown is not invoked; only when
the wallet stop returns nil is the daemon stopped.  The trace records the
sub-shutdowns actually invoked, in order. -/
def Moneroger.Shutdown (env : Env) (mg : Moneroger) :
    PanicOr (Option GoError) × Moneroger × List Call :=
  match mg.monerowalletrpc.Shutdown env with
  | (.panicked, w1) =>
    (.panicked, { mg with monerowalletrpc := w1 }, [.walletShutdownCall])
  | (.value (some e), w1) =>
    (.value (some e), { mg with monerowalletrpc := w1 }, [.walletShutdownCall])
  | (.value none, w1) =>
    let (r, d1) := mg.monerod.Shutdown env
    (.value r, { monerod := d1, monerowalletrpc := w1 },
     [.walletShutdownCall, .daemonShutdownCall])

/-! ## Concrete fixtures used to evaluate the model -/

/-- A context that is never cancelled. -/
def ctxLive : Ctx := ⟨fun _ => false, .basic "context canceled"⟩

/-- A context already cancelled before the first poll iteration. -/
def ctxCancelled : Ctx := ⟨fun _ => true, .basic "context canceled"⟩

/-- A benign environment: no port busy, lookups and spawns succeed,
signals deliver, processes exit in time. -/
def envBase : Env :=
  { portBusy := fun _ => false
    daemonGenPass := "dpass-generated-20ch"
    walletGenPass := "wpass-generated-20ch"
    moneroDPathRes := .ok "/usr/bin/monerod"
    daemonStartErr := none
    daemonProc := ⟨11⟩
    daemonCtx := ctxLive
    daemonPortBusyAt := fun _ => true
    walletPathRes := .ok "/usr/bin/monero-wallet-rpc"
    walletStartErr := none
    walletProc := ⟨22⟩
    walletCtx := ctxLive
    walletPortBusyAt := fun _ => true
    healthPortBusy := true
    walletSignalErr := none
    walletExitsInTime := true
    walletWaitErr := none
    daemonSignalErr := none }

/-- Like envBase but every port is already accepting connections. -/
def envBusy : Env := { envBase with portBusy := fun _ => true }

/-- Like envBase but the wallet process ignores the interrupt and the
10-second shutdown context fires first. -/
def envSlowExit : Env := { envBase with walletExitsInTime := false }

/-- Like envBase but interrupt delivery to the wallet process fails. -/
def envSigFail : Env := { envBase with walletSignalErr := some (.basic "EPERM") }

/-- A daemon handle with no process reference (attached or never started). -/
def daemonIdle : MoneroDaemon :=
  { cmd := none, dataDir := "/data", rpcPort := 18081, rpcUser := "",
    rpcPass := "", testnet := false, process := none }

/-- A daemon handle holding a live process reference. -/
def daemonLive : MoneroDaemon :=
  { daemonIdle with cmd := some ⟨some ⟨7⟩⟩, process := some ⟨7⟩ }

/-- A freshly constructed wallet handle: its cmd pointer is nil. -/
def walletFresh : WalletRPC :=
  { cmd := none, walletDir := "/data/wallet", rpcPort := 18082, rpcUser := "",
    rpcPass := "", walletPass := "", daemon := daemonIdle, process := none }

/-- A wallet handle holding a live spawned process. -/
def walletLive : WalletRPC := { walletFresh with cmd := some ⟨some ⟨22⟩⟩ }

/-- A concrete configuration. -/
def cfg0 : Config :=
  { dataDir := "/data", walletFile := "/data/wallet.keys",
    moneroPort := 18081, walletPort := 18082, testNet := false }

/-! ## Claims -/

/-- C1 counterexample: with the wallet port 18082 already accepting
connections, WalletRPC.Start returns a non-nil Network-kind error instead
of attaching, refuting "Start returns success ... and the returned handle
reports the pre-existing port" for the wallet supervisor (it does not
spawn: the event trace is empty). -/
theorem claim_C1_counterexample :
    (WalletRPC.Start envBusy walletFresh).1.isSome = true ∧
    GetKind (WalletRPC.Start envBusy walletFresh).1 = Kind.network ∧
    (WalletRPC.Start envBusy walletFresh).2.2 = [] :=
  ⟨rfl, rfl, rfl⟩

/-- C1 (amended): when the target port is already accepting connections,
NewMoneroDaemon attaches without spawning and its handle reports the
pre-existing port; WalletRPC.Start, by contrast, spawns nothing but
returns a Network-kind "port already in use" error and leaves its handle
unchanged. -/
theorem claim_C1_attach_or_conflict :
    (∀ (env : Env) (config : Config), IsPortInUse env config.moneroPort = true →
      NewMoneroDaemon env config =
        (.ok { cmd := none, dataDir := config.dataDir, rpcPort := config.moneroPort,
               rpcUser := "", rpcPass := "", testnet := config.testNet,
               process := none }, [])) ∧
    (∀ (env : Env) (w : WalletRPC), IsPortInUse env w.rpcPort = true →
      WalletRPC.Start env w =
        (some (E [.opArg "WalletRPC.Start", .compArg "wallet-rpc", .kindArg .network,
          .errArg (.basic ("port " ++ toString w.rpcPort ++ " is already in use"))]),
         w, [])) := by
  constructor
  · intro env config h
    simp [NewMoneroDaemon, h]
  · intro env w h
    simp [WalletRPC.Start, h]

/-- C1 witness: the two branches of the amended claim evaluated on the
busy-port environment. -/
theorem claim_C1_witness :
    NewMoneroDaemon envBusy cfg0 =
      (.ok { cmd := none, dataDir := "/data", rpcPort := 18081, rpcUser := "",
             rpcPass := "", testnet := false, process := none }, []) ∧
    WalletRPC.Start envBusy walletFresh =
      (some (E [.opArg "WalletRPC.Start", .compArg "wallet-rpc", .kindArg .network,
        .errArg (.basic "port 18082 is already in use")]), walletFresh, []) :=
  ⟨claim_C1_attach_or_conflict.1 envBusy cfg0 rfl,
   claim_C1_attach_or_conflict.2 envBusy walletFresh rfl⟩

/-- C2 (code bug, evaluation at the failing input): the daemon half of the
claim holds — Shutdown on a handle with no process reference is a pure
no-op — but WalletRPC.Shutdown on a handle that never spawned (cmd is the
nil pointer, as in the repository's own TestWalletRPCShutdown which runs
it on a zero-value WalletRPC) dereferences the nil cmd in the guard
`w.cmd.Process == nil` and panics instead of returning success. -/
theorem claim_C2_nil_handle_eval :
    MoneroDaemon.Shutdown envBase daemonIdle = (none, daemonIdle) ∧
    WalletRPC.Shutdown envBase walletFresh = (.panicked, walletFresh) :=
  ⟨rfl, rfl⟩

/-- C3 counterexample: the daemon supervisor holding a live process —
Shutdown returns nil immediately after signalling, and the stored process
reference is NOT cleared, refuting "races ... against a 10-second
shutdown-timeout context ... on successful exit it clears the stored
process reference" for the daemon supervisor. -/
theorem claim_C3_counterexample :
    MoneroDaemon.Shutdown envBase daemonLive = (none, daemonLive) ∧
    (MoneroDaemon.Shutdown envBase daemonLive).2.process ≠ none :=
  ⟨rfl, by decide⟩

/-- C3 (amended): only the wallet supervisor implements the signal /
race / clear protocol: with a live process and successful signal delivery
it returns a Timeout-kind error when the process outlives the 10-second
shutdown context, and on clean exit it returns nil and clears the command
(and with it the process reference) — after which a further Shutdown call
panics on the nil cmd dereference rather than being a successful no-op.
The daemon supervisor merely sends the interrupt and returns nil without
waiting and without clearing its process reference. -/
theorem claim_C3_shutdown_protocol :
    (∀ (env : Env) (w : WalletRPC) (c : Cmd) (p : Process),
      w.cmd = some c → c.process = some p → env.walletSignalErr = none →
      env.walletExitsInTime = false →
      (w.Shutdown env).1 = .value (some (E [.opArg "WalletRPC.Shutdown",
        .compArg "wallet-rpc", .kindArg .timeout,
        .errArg (.basic "shutdown timed out")]))) ∧
    (∀ (env : Env) (w : WalletRPC) (c : Cmd) (p : Process),
      w.cmd = some c → c.process = some p → env.walletSignalErr = none →
      env.walletExitsInTime = true → env.walletWaitErr = none →
      w.Shutdown env = (.value none, { w with cmd := none }) ∧
      WalletRPC.Shutdown env { w with cmd := none } =
        (.panicked, { w with cmd := none })) ∧
    (∀ (env : Env) (m : MoneroDaemon) (p : Process),
      m.process = some p → env.daemonSignalErr = none →
      MoneroDaemon.Shutdown env m = (none, m)) ∧
    GetKind (some (E [.opArg "WalletRPC.Shutdown", .compArg "wallet-rpc",
      .kindArg .timeout, .errArg (.basic "shutdown timed out")])) = .timeout := by
  refine ⟨?_, ?_, ?_, rfl⟩
  · intro env w c p hc hp hs ht
    simp [WalletRPC.Shutdown, hc, hp, hs, ht]
  · intro env w c p hc hp hs ht hw
    constructor
    · simp [WalletRPC.Shutdown, hc, hp, hs, ht, hw]
    · rfl
  · intro env m p hp hs
    simp [MoneroDaemon.Shutdown, hp, hs]

/-- C3 witness: the amended protocol evaluated on concrete handles — the
wallet times out under envSlowExit, exits cleanly under envBase (after
which a repeated Shutdown panics), and the live daemon's Shutdown returns
nil leaving its state untouched. -/
theorem claim_C3_witness :
    (walletLive.Shutdown envSlowExit).1 = .value (some (E [.opArg "WalletRPC.Shutdown",
      .compArg "wallet-rpc", .kindArg .timeout,
      .errArg (.basic "shutdown timed out")])) ∧
    walletLive.Shutdown envBase = (.value none, { walletLive with cmd := none }) ∧
    WalletRPC.Shutdown envBase { walletLive with cmd := none } =
      (.panicked, { walletLive with cmd := none }) ∧
    MoneroDaemon.Shutdown envBase daemonLive = (none, daemonLive) :=
  ⟨claim_C3_shutdown_protocol.1 envSlowExit walletLive ⟨some ⟨22⟩⟩ ⟨22⟩ rfl rfl rfl rfl,
   (claim_C3_shutdown_protocol.2.1 envBase walletLive ⟨some ⟨22⟩⟩ ⟨22⟩ rfl rfl rfl rfl rfl).1,
   (claim_C3_shutdown_protocol.2.1 envBase walletLive ⟨some ⟨22⟩⟩ ⟨22⟩ rfl rfl rfl rfl rfl).2,
   claim_C3_shutdown_protocol.2.2.1 envBase daemonLive ⟨7⟩ rfl rfl⟩

/-- Wrapping an error n times with fmt.Errorf %w context. -/
def wrapN (msgs : List String) (e : GoError) : GoError :=
  msgs.foldr .wrapped e

/-- An unwrap chain that never reaches a taxonomy *Error resolves to
KindUnknown. -/
theorem noTax_getKindAux_unknown :
    ∀ e : GoError, hasTax e = false → getKindAux e = .unknown
  | .tax _ _ _ _, he => by simp [hasTax] at he
  | .wrapped _ cause, he =>
    noTax_getKindAux_unknown cause (by simpa [hasTax] using he)
  | .basic _, _ => rfl

/-- C4: GetKind recovers the Kind given to the constructor E through any
number of %w wrappers (in particular two), and returns KindUnknown for a
nil error and for every error whose unwrap chain holds no taxonomy
*Error. -/
theorem claim_C4_getkind_unwraps :
    (∀ (o c : String) (k : Kind) (e : GoError) (m1 m2 : String),
      GetKind (some (.wrapped m2 (.wrapped m1
        (E [.opArg o, .compArg c, .kindArg k, .errArg e])))) = k) ∧
    (∀ (msgs : List String) (o c : String) (k : Kind) (e : GoError),
      GetKind (some (wrapN msgs
        (E [.opArg o, .compArg c, .kindArg k, .errArg e]))) = k) ∧
    (∀ e : GoError, hasTax e = false → GetKind (some e) = .unknown) ∧
    GetKind none = .unknown := by
  refine ⟨fun o c k e m1 m2 => rfl, ?_, ?_, rfl⟩
  · intro msgs o c k e
    induction msgs with
    | nil => rfl
    | cons m ms ih => simpa [wrapN, GetKind, getKindAux] using ih
  · intro e he
    exact noTax_getKindAux_unknown e he

/-- C4 witness: a Network-kind taxonomy error wrapped twice still reads
back as Network, and a plain error reads back as Unknown. -/
theorem claim_C4_witness :
    GetKind (some (.wrapped "retry failed: " (.wrapped "starting daemon: "
      (E [.opArg "Start", .compArg "monerod", .kindArg .network,
          .errArg (.basic "dial refused")])))) = .network ∧
    GetKind (some (.basic "plain failure")) = .unknown :=
  ⟨claim_C4_getkind_unwraps.1 "Start" "monerod" .network (.basic "dial refused")
      "starting daemon: " "retry failed: ",
   claim_C4_getkind_unwraps.2.2.1 (.basic "plain failure") rfl⟩

/-- C5: with a context already cancelled before the first call,
WaitForPort returns the context's cancellation error on the very first
loop iteration — for every probe oracle (so no probe outcome and no sleep
is involved) and under any positive deadline budget, not only the default
30-second one. -/
theorem claim_C5_cancelled_ctx :
    ∀ (ctx : Ctx) (pb : Nat → Bool) (port : Int), (∀ t, ctx.doneAt t = true) →
      WaitForPort ctx pb port = some ctx.errVal ∧
      (∀ d, 0 < d → waitLoop ctx pb port 0 d = some ctx.errVal) := by
  intro ctx pb port h
  have hstep : ∀ d, 0 < d → waitLoop ctx pb port 0 d = some ctx.errVal := by
    intro d hd
    cases d with
    | zero => omega
    | succ n => simp [waitLoop, h 0]
  exact ⟨hstep DefaultStartupTimeout (by simp [DefaultStartupTimeout]), hstep⟩

/-- C5 witness: the cancelled context wins even while the port itself is
accepting connections. -/
theorem claim_C5_witness :
    WaitForPort ctxCancelled (fun _ => true) 18081 =
      some (GoError.basic "context canceled") :=
  (claim_C5_cancelled_ctx ctxCancelled (fun _ => true) 18081 (fun _ => rfl)).1

/-- Shared evaluation of the polling loop when neither cancellation nor a
successful probe ever occurs: every remaining budget ends in the plain
timeout error. -/
theorem waitLoop_timeout (ctx : Ctx) (pb : Nat → Bool) (port : Int)
    (hc : ∀ t, ctx.doneAt t = false) (hp : ∀ t, pb t = false) :
    ∀ (r t : Nat), waitLoop ctx pb port t r =
      some (.basic ("timeout waiting for port " ++ toString port)) := by
  intro r
  induction r with
  | zero => intro t; rfl
  | succ n ih =>
    intro t
    simpa [waitLoop, hc t, hp t] using ih (t + 1)

/-- C6 counterexample: a full 30-second run with the port never accepting
connections produces an error that GetKind does NOT classify as Timeout,
refuting "the error it returns is classified as Timeout kind by the
taxonomy". -/
theorem claim_C6_counterexample :
    GetKind (WaitForPort ctxLive (fun _ => false) 18081) ≠ Kind.timeout := by
  decide

/-- C6 (amended): when WaitForPort runs past the 30-second deadline
without a successful connection, it returns a plain fmt.Errorf error whose
message names the port; the error is not built by the taxonomy, so
GetKind classifies it as Unknown, not Timeout (the supervisors wrap it
afterwards: the daemon under Network kind, the wallet under Timeout
kind). -/
theorem claim_C6_timeout_error_shape :
    ∀ (ctx : Ctx) (pb : Nat → Bool) (port : Int),
      (∀ t, ctx.doneAt t = false) → (∀ t, pb t = false) →
      WaitForPort ctx pb port =
        some (.basic ("timeout waiting for port " ++ toString port)) ∧
      GetKind (WaitForPort ctx pb port) = .unknown ∧
      errMessage (.basic ("timeout waiting for port " ++ toString port)) =
        "timeout waiting for port " ++ toString port := by
  intro ctx pb port hc hp
  have h := waitLoop_timeout ctx pb port hc hp DefaultStartupTimeout 0
  refine ⟨h, ?_, rfl⟩
  simp [WaitForPort] at h ⊢
  rw [h]
  rfl

/-- C6 witness: the amended statement evaluated on a never-ready port. -/
theorem claim_C6_witness :
    WaitForPort ctxLive (fun _ => false) 18081 =
      some (.basic "timeout waiting for port 18081") ∧
    GetKind (WaitForPort ctxLive (fun _ => false) 18081) = .unknown :=
  ⟨(claim_C6_timeout_error_shape ctxLive (fun _ => false) 18081
      (fun _ => rfl) (fun _ => rfl)).1,
   (claim_C6_timeout_error_shape ctxLive (fun _ => false) 18081
      (fun _ => rfl) (fun _ => rfl)).2.1⟩

/-- C7: the coordinator's Shutdown always invokes the wallet supervisor's
Shutdown first; when the wallet stop yields an error, that error is
returned unchanged, the daemon supervisor's Shutdown is never invoked and
the daemon state is untouched; the daemon stop is invoked exactly when the
wallet stop returned nil. -/
theorem claim_C7_shutdown_ordering :
    ∀ (env : Env) (mg : Moneroger),
      (mg.Shutdown env).2.2.head? = some Call.walletShutdownCall ∧
      (∀ e : GoError, (mg.monerowalletrpc.Shutdown env).1 = .value (some e) →
        (mg.Shutdown env).1 = .value (some e) ∧
        (mg.Shutdown env).2.2 = [Call.walletShutdownCall] ∧
        (mg.Shutdown env).2.1.monerod = mg.monerod) ∧
      (Call.daemonShutdownCall ∈ (mg.Shutdown env).2.2 ↔
        (mg.monerowalletrpc.Shutdown env).1 = .value none) := by
  intro env mg
  rcases h : mg.monerowalletrpc.Shutdown env with ⟨r, w1⟩
  match r with
  | .panicked =>
    refine ⟨?_, ?_, ?_⟩ <;> simp [Moneroger.Shutdown, h]
  | .value none =>
    refine ⟨?_, ?_, ?_⟩ <;> simp [Moneroger.Shutdown, h]
  | .value (some e) =>
    refine ⟨?_, ?_, ?_⟩ <;> simp [Moneroger.Shutdown, h]

/-- C7 witness: with interrupt delivery to the wallet process failing, the
coordinator returns the wallet's Process-kind error and the trace shows
the daemon supervisor's Shutdown was never invoked. -/
theorem claim_C7_witness :
    (Moneroger.Shutdown envSigFail ⟨daemonLive, walletLive⟩).1 =
      .value (some (E [.opArg "WalletRPC.Shutdown", .compArg "wallet-rpc",
        .kindArg .process,
        .errArg (.wrapped "failed to send interrupt signal: " (.basic "EPERM"))])) ∧
    (Moneroger.Shutdown envSigFail ⟨daemonLive, walletLive⟩).2.2 =
      [Call.walletShutdownCall] ∧
    (Moneroger.Shutdown envSigFail ⟨daemonLive, walletLive⟩).2.1.monerod =
      daemonLive :=
  (claim_C7_shutdown_ordering envSigFail ⟨daemonLive, walletLive⟩).2.1
    (E [.opArg "WalletRPC.Shutdown", .compArg "wallet-rpc", .kindArg .process,
        .errArg (.wrapped "failed to send interrupt signal: " (.basic "EPERM"))]) rfl

/-- C8: the variadic constructor E assigns each argument to the field
selected by its dynamic type, so for one Op, one component string, one
Kind and one non-*Error underlying error, every permutation of the four
arguments yields the same Error value with exactly those fields. -/
theorem claim_C8_constructor_order_free :
    ∀ (o c : String) (k : Kind) (e : GoError) (l : List EArg),
      e.isTax = false →
      l.Perm [.opArg o, .compArg c, .kindArg k, .errArg e] →
      E l = .tax o c k (some e) := by
  intro o c k e l _he hl
  have hcomm : ∀ x ∈ [EArg.opArg o, .compArg c, .kindArg k, .errArg e],
      ∀ y ∈ [EArg.opArg o, .compArg c, .kindArg k, .errArg e],
      ∀ z, setArg (setArg z x) y = setArg (setArg z y) x := by
    intro x hx y hy z
    fin_cases hx <;> fin_cases hy <;> rfl
  have hfold :=
    hl.symm.foldl_eq' hcomm (⟨"", "", Kind.unknown, none⟩ : ErrStruct)
  simp only [E]
  rw [← hfold]
  rfl

/-- C8 witness: swapping the component in front of the operation changes
nothing. -/
theorem claim_C8_witness :
    E [.compArg "monerod", .opArg "Start", .kindArg .network,
       .errArg (.basic "boom")] =
      .tax "Start" "monerod" .network (some (.basic "boom")) :=
  claim_C8_constructor_order_free "Start" "monerod" .network (.basic "boom")
    [.compArg "monerod", .opArg "Start", .kindArg .network, .errArg (.basic "boom")]
    rfl (List.Perm.swap _ _ _)

/-- C9: with no explicit password set, the first call to the password
accessor returns the freshly generated secret and stores it, and a second
consecutive call returns the identical string without regenerating — for
the daemon's RPCPass and the wallet's WalletRPCPass alike (SecurePassword
always returns a 20-character, hence nonempty, string). -/
theorem claim_C9_password_memoized :
    (∀ (m : MoneroDaemon) (g1 g2 : String), m.rpcPass = "" → g1 ≠ "" →
      (m.RPCPass g1).1 = g1 ∧
      ((m.RPCPass g1).2.RPCPass g2).1 = (m.RPCPass g1).1) ∧
    (∀ (w : WalletRPC) (g1 g2 : String), w.rpcPass = "" → g1 ≠ "" →
      (w.WalletRPCPass g1).1 = g1 ∧
      ((w.WalletRPCPass g1).2.WalletRPCPass g2).1 = (w.WalletRPCPass g1).1) := by
  constructor
  · intro m g1 g2 h hg
    simp [MoneroDaemon.RPCPass, h, hg]
  · intro w g1 g2 h hg
    simp [WalletRPC.WalletRPCPass, h, hg]

/-- C9 witness: both accessors on fresh handles return the generated
secret twice. -/
theorem claim_C9_witness :
    ((daemonIdle.RPCPass "s3cret-20-characters").1 = "s3cret-20-characters" ∧
      ((daemonIdle.RPCPass "s3cret-20-characters").2.RPCPass "other").1 =
        (daemonIdle.RPCPass "s3cret-20-characters").1) ∧
    ((walletFresh.WalletRPCPass "w4llet-20-characters").1 = "w4llet-20-characters" ∧
      ((walletFresh.WalletRPCPass "w4llet-20-characters").2.WalletRPCPass "other").1 =
        (walletFresh.WalletRPCPass "w4llet-20-characters").1) :=
  ⟨claim_C9_password_memoized.1 daemonIdle "s3cret-20-characters" "other" rfl
      (by decide),
   claim_C9_password_memoized.2 walletFresh "w4llet-20-characters" "other" rfl
      (by decide)⟩

/-- C10: WalletPass returns the rpcPass field, not walletPass — when
walletPass is unset it stores "changeme" there yet still returns rpcPass
(so the empty string when rpcPass is also unset); a value installed via
SetWalletPass is never what is returned (the return value is always the
rpcPass field); consequently, in the argument list Start builds, the
value of --password equals the password component of --rpc-login. -/
theorem claim_C10_walletpass_returns_rpcpass :
    (∀ w : WalletRPC, w.walletPass = "" →
      w.WalletPass = (w.rpcPass, { w with walletPass := "changeme" })) ∧
    (∀ (w : WalletRPC) (p : String),
      ((w.SetWalletPass p).2.WalletPass).1 = w.rpcPass) ∧
    (∀ (env : Env) (w : WalletRPC),
      (buildWalletArgs env w).1.get? 12 =
        some ((buildWalletArgs env w).2.rpcPass) ∧
      (buildWalletArgs env w).1.get? 10 =
        some ((buildWalletArgs env w).2.rpcUser ++ ":" ++
          (buildWalletArgs env w).2.rpcPass)) := by
  refine ⟨?_, ?_, ?_⟩
  · intro w h
    simp [WalletRPC.WalletPass, h]
  · intro w p
    simp only [WalletRPC.SetWalletPass, WalletRPC.WalletPass]
    split <;> rfl
  · intro env w
    simp only [buildWalletArgs, WalletRPC.WalletRPCUser, WalletRPC.WalletRPCPass,
      WalletRPC.WalletPass, MoneroDaemon.RPCUser, MoneroDaemon.RPCPass]
    split <;> split <;> split <;> split <;> split <;> simp

/-- C10 witness: on a fresh handle (nothing set) WalletPass mutates
walletPass to "changeme" and returns the empty rpcPass, a password set
via SetWalletPass is not returned, and in the built argument list the
--password value coincides with the --rpc-login password. -/
theorem claim_C10_witness :
    walletFresh.WalletPass = ("", { walletFresh with walletPass := "changeme" }) ∧
    ((walletFresh.SetWalletPass "hunter2").2.WalletPass).1 = "" ∧
    (buildWalletArgs envBase walletFresh).1.get? 12 =
      some ((buildWalletArgs envBase walletFresh).2.rpcPass) :=
  ⟨claim_C10_walletpass_returns_rpcpass.1 walletFresh rfl,
   claim_C10_walletpass_returns_rpcpass.2.1 walletFresh "hunter2",
   (claim_C10_walletpass_returns_rpcpass.2.2 envBase walletFresh).1⟩
